import Mathlib

/-!
Shallow embedding of the CRISP-32 virtual machine and assembler
(src/src/vm/c32_vm.c, src/src/asm/c32_parser.c, src/src/asm/c32_symbols.c,
src/src/c32_encode.c, src/src/c32asm.c), together with theorems settling
the claims about it.

Modelling conventions:
- uint32 values are Nat kept below 2^32; every arithmetic step that the C
  performs on a uint32 is followed by `% U32` exactly where C wraps.
- int32 values are obtained by `to_int32` (two's complement reinterpretation)
  and converted back with `of_int32`.  Signed overflow, which is undefined
  behaviour in C, is modelled as wrap-around.
- Guest memory `uint8_t *memory` is modelled as a total function
  `Nat -> Nat`; a byte read is `m a % 256` (uint8), a byte write stores
  `v % 256`.  Addresses at or beyond `memory_size` have no C counterpart
  (accessing them through the real buffer is out of bounds); the model keeps
  them defined so that the code's missing bounds checks become observable.
- The C strings of the assembler are modelled as `List Char` without the
  terminating NUL; an input file is a list of lines with the newline already
  stripped, mirroring the fgets loop of c32_asm_assemble_file.
-/

namespace Crisp32

/-- 2^32, the modulus of uint32 arithmetic. -/
def U32 : Nat := 4294967296

/-- The fault sentinel 0xFFFFFFFF returned by translate_address. -/
def SENTINEL : Nat := 4294967295

/-! Opcode constants from include/c32_opcodes.h. -/

def OP_NOP : Nat := 0x00
def OP_ADD : Nat := 0x01
def OP_ADDU : Nat := 0x02
def OP_SUB : Nat := 0x03
def OP_SUBU : Nat := 0x04
def OP_ADDI : Nat := 0x05
def OP_ADDIU : Nat := 0x06
def OP_AND : Nat := 0x10
def OP_OR : Nat := 0x11
def OP_XOR : Nat := 0x12
def OP_NOR : Nat := 0x13
def OP_ANDI : Nat := 0x14
def OP_ORI : Nat := 0x15
def OP_XORI : Nat := 0x16
def OP_LUI : Nat := 0x17
def OP_SLL : Nat := 0x20
def OP_SRL : Nat := 0x21
def OP_SRA : Nat := 0x22
def OP_SLLV : Nat := 0x23
def OP_SRLV : Nat := 0x24
def OP_SRAV : Nat := 0x25
def OP_SLT : Nat := 0x30
def OP_SLTU : Nat := 0x31
def OP_SLTI : Nat := 0x32
def OP_SLTIU : Nat := 0x33
def OP_MUL : Nat := 0x40
def OP_MULH : Nat := 0x41
def OP_MULHU : Nat := 0x42
def OP_DIV : Nat := 0x43
def OP_DIVU : Nat := 0x44
def OP_REM : Nat := 0x45
def OP_REMU : Nat := 0x46
def OP_LW : Nat := 0x50
def OP_LH : Nat := 0x51
def OP_LHU : Nat := 0x52
def OP_LB : Nat := 0x53
def OP_LBU : Nat := 0x54
def OP_SW : Nat := 0x58
def OP_SH : Nat := 0x59
def OP_SB : Nat := 0x5A
def OP_BEQ : Nat := 0x60
def OP_BNE : Nat := 0x61
def OP_BLEZ : Nat := 0x62
def OP_BGTZ : Nat := 0x63
def OP_BLTZ : Nat := 0x64
def OP_BGEZ : Nat := 0x65
def OP_J : Nat := 0x70
def OP_JAL : Nat := 0x71
def OP_JR : Nat := 0x72
def OP_JALR : Nat := 0x73
def OP_SYSCALL : Nat := 0xF0
def OP_BREAK : Nat := 0xF1
def OP_EI : Nat := 0xF2
def OP_DI : Nat := 0xF3
def OP_IRET : Nat := 0xF4
def OP_RAISE : Nat := 0xF5
def OP_GETPC : Nat := 0xF6
def OP_ENABLE_PAGING : Nat := 0xF7
def OP_DISABLE_PAGING : Nat := 0xF8
def OP_SET_PTBR : Nat := 0xF9
def OP_ENTER_USER : Nat := 0xFB
def OP_GETMODE : Nat := 0xFC

/-! Two's complement reinterpretation helpers for the (int32_t) casts. -/

/-- Reinterpret a uint32 value as int32 (two's complement). -/
def to_int32 (n : Nat) : Int :=
  if n % U32 < 2147483648 then ((n % U32 : Nat) : Int)
  else ((n % U32 : Nat) : Int) - 4294967296

/-- Convert an Int back to its uint32 bit pattern. -/
def of_int32 (i : Int) : Nat := (i % (4294967296 : Int)).toNat

/-! Memory helpers (c32_read_word / c32_write_word and friends).
The C functions take a pointer into the guest buffer; here they take the
memory function and the byte offset. -/

/-- Store one byte (c32_write_byte): uint8 truncation of the value. -/
def set_mem (m : Nat → Nat) (a v : Nat) : Nat → Nat :=
  fun x => if x = a then v % 256 else m x

/-- Read one byte (c32_read_byte). -/
def c32_read_byte (m : Nat → Nat) (a : Nat) : Nat := m a % 256

/-- Read a 16-bit little-endian halfword (c32_read_half). -/
def c32_read_half (m : Nat → Nat) (a : Nat) : Nat :=
  c32_read_byte m a + 256 * c32_read_byte m (a + 1)

/-- Read a 32-bit little-endian word (c32_read_word). -/
def c32_read_word (m : Nat → Nat) (a : Nat) : Nat :=
  c32_read_byte m a + 256 * c32_read_byte m (a + 1) +
    65536 * c32_read_byte m (a + 2) + 16777216 * c32_read_byte m (a + 3)

/-- Write a 32-bit little-endian word (c32_write_word). -/
def c32_write_word (m : Nat → Nat) (a v : Nat) : Nat → Nat :=
  set_mem (set_mem (set_mem (set_mem m a v) (a + 1) (v / 256)) (a + 2) (v / 65536))
    (a + 3) (v / 16777216)

/-- Write a 16-bit little-endian halfword (c32_write_half). -/
def c32_write_half (m : Nat → Nat) (a v : Nat) : Nat → Nat :=
  set_mem (set_mem m a v) (a + 1) (v / 256)

/-! The VM state (struct c32_vm_t from include/c32_vm.h). -/

/-- Interrupt subsystem state: the anonymous struct interrupts of c32_vm_t.
pending models the uint8_t pending[32] byte array. -/
structure IntState where
  enabled : Bool
  pending : Nat → Nat
  saved_pc : Nat
  saved_regs_addr : Nat

/-- The VM state struct c32_vm_t.  regs models uint32_t regs[32]. -/
structure VM where
  regs : Nat → Nat
  pc : Nat
  memory : Nat → Nat
  memory_size : Nat
  running : Bool
  kernel_mode : Bool
  paging_enabled : Bool
  page_table_base : Nat
  num_pages : Nat
  interrupts : IntState

/-- Write a register (plain array store regs[i] = v). -/
def set_reg (r : Nat → Nat) (i v : Nat) : Nat → Nat :=
  fun j => if j = i then v else r j

/-- c32_raise_interrupt: set pending bit int_num (callers pass values < 256). -/
def c32_raise_interrupt (vm : VM) (int_num : Nat) : VM :=
  let byte_idx := int_num / 8
  let bit_idx := int_num % 8
  if byte_idx < 32 then
    { vm with interrupts := { vm.interrupts with
        pending := fun b =>
          if b = byte_idx then vm.interrupts.pending b ||| (1 <<< bit_idx)
          else vm.interrupts.pending b } }
  else vm

/-- The pending-bit test `pending[byte_idx] & (1 << bit_idx)` of check_interrupts. -/
def pending_test (vm : VM) (n : Nat) : Bool :=
  ((vm.interrupts.pending (n / 8)) &&& (1 <<< (n % 8))) != 0

/-- The scan loop of check_interrupts: `for (int_num = 0; int_num < 255; ...)`.
count is the number of remaining iterations (255 at the start), i the current
interrupt index. -/
def scan_pending (vm : VM) : Nat → Nat → Option Nat
  | 0, _ => none
  | Nat.succ c, i => if pending_test vm i then some i else scan_pending vm c (i + 1)

/-- The register-save loop of check_interrupts: stores regs[0..31] as
little-endian words at saved_regs_addr + i*4 (addresses wrap mod 2^32 as the
uint32 offset arithmetic does). -/
def store_regs (m : Nat → Nat) (base : Nat) (r : Nat → Nat) : Nat → Nat :=
  (List.range 32).foldl (fun mm i => c32_write_word mm ((base + i * 4) % U32) (r i)) m

/-- The dispatch sequence of check_interrupts once a pending interrupt n has
been found: clear the bit, save PC, enter kernel mode, push the register file,
disable interrupts, load R4 and the handler address.  Returns the C function's
result (1 dispatched, -1 if the IVT read would exceed memory) with the state. -/
def dispatch_int (vm : VM) (n : Nat) : Int × VM :=
  let pend' : Nat → Nat := fun b =>
    if b = n / 8 then vm.interrupts.pending b &&& (255 ^^^ (1 <<< (n % 8)))
    else vm.interrupts.pending b
  let r29 := (vm.regs 29 + (U32 - 128)) % U32
  let regs1 := set_reg vm.regs 29 r29
  let mem1 :=
    if (r29 + 128) % U32 ≤ vm.memory_size then store_regs vm.memory r29 regs1
    else vm.memory
  let regs2 := set_reg regs1 4 n
  let ints' : IntState :=
    { enabled := false, pending := pend', saved_pc := vm.pc, saved_regs_addr := r29 }
  let ivt_offset := n * 8
  if ivt_offset + 4 ≤ vm.memory_size then
    (1, { vm with
            regs := regs2
            memory := mem1
            kernel_mode := true
            pc := c32_read_word mem1 ivt_offset
            interrupts := ints' })
  else
    (-1, { vm with
             regs := regs2
             memory := mem1
             kernel_mode := true
             running := false
             interrupts := ints' })

/-- check_interrupts from c32_vm.c: dispatch the lowest pending interrupt
among 0..254 when interrupts are enabled. -/
def check_interrupts (vm : VM) : Int × VM :=
  if vm.interrupts.enabled = false then (0, vm)
  else
    match scan_pending vm 255 0 with
    | none => (0, vm)
    | some n => dispatch_int vm n

/-- translate_address from c32_vm.c.  Returns the physical address (SENTINEL
on fault) together with the state, whose pending bitmap gains interrupt 8 on
fault.  All address arithmetic wraps mod 2^32 exactly as the uint32
computations in the C do. -/
def translate_address (vm : VM) (vaddr : Nat) (is_write is_exec : Bool) : Nat × VM :=
  if vm.kernel_mode then (vaddr, vm)
  else if vm.paging_enabled = false then (vaddr, vm)
  else
    let page_num := vaddr / 4096
    let page_offset := vaddr % 4096
    if page_num ≥ vm.num_pages then (SENTINEL, c32_raise_interrupt vm 8)
    else
      let pte_addr := (vm.page_table_base + page_num * 4) % U32
      if (pte_addr + 4) % U32 > vm.memory_size then (SENTINEL, c32_raise_interrupt vm 8)
      else
        let pte := c32_read_word vm.memory pte_addr
        let user := (pte / 8) % 2
        let executable := (pte / 4) % 2
        let writable := (pte / 2) % 2
        let valid := pte % 2
        if valid = 0 then (SENTINEL, c32_raise_interrupt vm 8)
        else if user = 0 then (SENTINEL, c32_raise_interrupt vm 8)
        else if is_write = true ∧ writable = 0 then (SENTINEL, c32_raise_interrupt vm 8)
        else if is_exec = true ∧ executable = 0 then (SENTINEL, c32_raise_interrupt vm 8)
        else ((pte &&& 4294963200) ||| page_offset, vm)

/-- Reinterpret a uint16 value as int16 (the (int16_t) cast of OP_LH). -/
def to_int16 (n : Nat) : Int :=
  if n % 65536 < 32768 then ((n % 65536 : Nat) : Int)
  else ((n % 65536 : Nat) : Int) - 65536

/-- Reinterpret a uint8 value as int8 (the (int8_t) cast of OP_LB). -/
def to_int8 (n : Nat) : Int :=
  if n % 256 < 128 then ((n % 256 : Nat) : Int)
  else ((n % 256 : Nat) : Int) - 256

/-- The switch statement of c32_vm_step: execute one decoded instruction.
The caller (c32_vm_step) has already advanced pc by 8, so vm.pc here is the
address of the next instruction, exactly as in the C.  Register values are
uint32 (kept < 2^32 by every writer). -/
def exec_instr (vm : VM) (opcode rs rt rd imm : Nat) : VM :=
  if opcode = OP_NOP then vm
  else if opcode = OP_ADD then
    { vm with regs := set_reg vm.regs rd (of_int32 (to_int32 (vm.regs rs) + to_int32 (vm.regs rt))) }
  else if opcode = OP_ADDU then
    { vm with regs := set_reg vm.regs rd ((vm.regs rs + vm.regs rt) % U32) }
  else if opcode = OP_SUB then
    { vm with regs := set_reg vm.regs rd (of_int32 (to_int32 (vm.regs rs) - to_int32 (vm.regs rt))) }
  else if opcode = OP_SUBU then
    { vm with regs := set_reg vm.regs rd ((vm.regs rs + (U32 - vm.regs rt % U32)) % U32) }
  else if opcode = OP_ADDI then
    { vm with regs := set_reg vm.regs rt (of_int32 (to_int32 (vm.regs rs) + to_int32 imm)) }
  else if opcode = OP_ADDIU then
    { vm with regs := set_reg vm.regs rt ((vm.regs rs + imm) % U32) }
  else if opcode = OP_AND then
    { vm with regs := set_reg vm.regs rd (vm.regs rs &&& vm.regs rt) }
  else if opcode = OP_OR then
    { vm with regs := set_reg vm.regs rd (vm.regs rs ||| vm.regs rt) }
  else if opcode = OP_XOR then
    { vm with regs := set_reg vm.regs rd (vm.regs rs ^^^ vm.regs rt) }
  else if opcode = OP_NOR then
    { vm with regs := set_reg vm.regs rd ((vm.regs rs ||| vm.regs rt) ^^^ 4294967295) }
  else if opcode = OP_ANDI then
    { vm with regs := set_reg vm.regs rt (vm.regs rs &&& imm) }
  else if opcode = OP_ORI then
    { vm with regs := set_reg vm.regs rt (vm.regs rs ||| imm) }
  else if opcode = OP_XORI then
    { vm with regs := set_reg vm.regs rt (vm.regs rs ^^^ imm) }
  else if opcode = OP_LUI then
    { vm with regs := set_reg vm.regs rt ((imm <<< 16) % U32) }
  else if opcode = OP_SLL then
    { vm with regs := set_reg vm.regs rd ((vm.regs rt <<< (imm % 32)) % U32) }
  else if opcode = OP_SRL then
    { vm with regs := set_reg vm.regs rd (vm.regs rt >>> (imm % 32)) }
  else if opcode = OP_SRA then
    { vm with regs := set_reg vm.regs rd (of_int32 (Int.fdiv (to_int32 (vm.regs rt)) (2 ^ (imm % 32)))) }
  else if opcode = OP_SLLV then
    { vm with regs := set_reg vm.regs rd ((vm.regs rt <<< (vm.regs rs % 32)) % U32) }
  else if opcode = OP_SRLV then
    { vm with regs := set_reg vm.regs rd (vm.regs rt >>> (vm.regs rs % 32)) }
  else if opcode = OP_SRAV then
    { vm with regs := set_reg vm.regs rd (of_int32 (Int.fdiv (to_int32 (vm.regs rt)) (2 ^ (vm.regs rs % 32)))) }
  else if opcode = OP_SLT then
    { vm with regs := set_reg vm.regs rd (if to_int32 (vm.regs rs) < to_int32 (vm.regs rt) then 1 else 0) }
  else if opcode = OP_SLTU then
    { vm with regs := set_reg vm.regs rd (if vm.regs rs < vm.regs rt then 1 else 0) }
  else if opcode = OP_SLTI then
    { vm with regs := set_reg vm.regs rt (if to_int32 (vm.regs rs) < to_int32 imm then 1 else 0) }
  else if opcode = OP_SLTIU then
    { vm with regs := set_reg vm.regs rt (if vm.regs rs < imm then 1 else 0) }
  else if opcode = OP_MUL then
    { vm with regs := set_reg vm.regs rd ((vm.regs rs * vm.regs rt) % U32) }
  else if opcode = OP_MULH then
    -- C89 has no 64-bit type: the source sets rd to 0 (see c32_vm.c)
    { vm with regs := set_reg vm.regs rd 0 }
  else if opcode = OP_MULHU then
    { vm with regs := set_reg vm.regs rd 0 }
  else if opcode = OP_DIV then
    { vm with regs := (set_reg vm.regs rd
        (if vm.regs rt ≠ 0 then of_int32 (Int.tdiv (to_int32 (vm.regs rs)) (to_int32 (vm.regs rt))) else 0)) }
  else if opcode = OP_DIVU then
    { vm with regs := set_reg vm.regs rd (if vm.regs rt ≠ 0 then vm.regs rs / vm.regs rt else 0) }
  else if opcode = OP_REM then
    { vm with regs := (set_reg vm.regs rd
        (if vm.regs rt ≠ 0 then of_int32 (Int.tmod (to_int32 (vm.regs rs)) (to_int32 (vm.regs rt))) else 0)) }
  else if opcode = OP_REMU then
    { vm with regs := set_reg vm.regs rd (if vm.regs rt ≠ 0 then vm.regs rs % vm.regs rt else 0) }
  else if opcode = OP_LW then
    let addr := (vm.regs rs + imm) % U32
    let res := translate_address vm addr false false
    let vm1 := res.2
    if res.1 ≠ SENTINEL ∧ (res.1 + 4) % U32 ≤ vm1.memory_size then
      { vm1 with regs := set_reg vm1.regs rt (c32_read_word vm1.memory res.1) }
    else vm1
  else if opcode = OP_LH then
    let addr := (vm.regs rs + imm) % U32
    let res := translate_address vm addr false false
    let vm1 := res.2
    if res.1 ≠ SENTINEL ∧ (res.1 + 2) % U32 ≤ vm1.memory_size then
      { vm1 with regs := set_reg vm1.regs rt (of_int32 (to_int16 (c32_read_half vm1.memory res.1))) }
    else vm1
  else if opcode = OP_LHU then
    let addr := (vm.regs rs + imm) % U32
    let res := translate_address vm addr false false
    let vm1 := res.2
    if res.1 ≠ SENTINEL ∧ (res.1 + 2) % U32 ≤ vm1.memory_size then
      { vm1 with regs := set_reg vm1.regs rt (c32_read_half vm1.memory res.1) }
    else vm1
  else if opcode = OP_LB then
    let addr := (vm.regs rs + imm) % U32
    let res := translate_address vm addr false false
    let vm1 := res.2
    if res.1 ≠ SENTINEL ∧ (res.1 + 1) % U32 ≤ vm1.memory_size then
      { vm1 with regs := set_reg vm1.regs rt (of_int32 (to_int8 (c32_read_byte vm1.memory res.1))) }
    else vm1
  else if opcode = OP_LBU then
    let addr := (vm.regs rs + imm) % U32
    let res := translate_address vm addr false false
    let vm1 := res.2
    if res.1 ≠ SENTINEL ∧ (res.1 + 1) % U32 ≤ vm1.memory_size then
      { vm1 with regs := set_reg vm1.regs rt (c32_read_byte vm1.memory res.1) }
    else vm1
  else if opcode = OP_SW then
    let addr := (vm.regs rs + imm) % U32
    let res := translate_address vm addr true false
    let vm1 := res.2
    if res.1 ≠ SENTINEL ∧ (res.1 + 4) % U32 ≤ vm1.memory_size then
      { vm1 with memory := c32_write_word vm1.memory res.1 (vm1.regs rt) }
    else vm1
  else if opcode = OP_SH then
    let addr := (vm.regs rs + imm) % U32
    let res := translate_address vm addr true false
    let vm1 := res.2
    if res.1 ≠ SENTINEL ∧ (res.1 + 2) % U32 ≤ vm1.memory_size then
      { vm1 with memory := c32_write_half vm1.memory res.1 (vm1.regs rt % 65536) }
    else vm1
  else if opcode = OP_SB then
    let addr := (vm.regs rs + imm) % U32
    let res := translate_address vm addr true false
    let vm1 := res.2
    if res.1 ≠ SENTINEL ∧ (res.1 + 1) % U32 ≤ vm1.memory_size then
      { vm1 with memory := set_mem vm1.memory res.1 (vm1.regs rt % 256) }
    else vm1
  else if opcode = OP_BEQ then
    if vm.regs rs = vm.regs rt then { vm with pc := (vm.pc + imm) % U32 } else vm
  else if opcode = OP_BNE then
    if vm.regs rs ≠ vm.regs rt then { vm with pc := (vm.pc + imm) % U32 } else vm
  else if opcode = OP_BLEZ then
    if to_int32 (vm.regs rs) ≤ 0 then { vm with pc := (vm.pc + imm) % U32 } else vm
  else if opcode = OP_BGTZ then
    if 0 < to_int32 (vm.regs rs) then { vm with pc := (vm.pc + imm) % U32 } else vm
  else if opcode = OP_BLTZ then
    if to_int32 (vm.regs rs) < 0 then { vm with pc := (vm.pc + imm) % U32 } else vm
  else if opcode = OP_BGEZ then
    if 0 ≤ to_int32 (vm.regs rs) then { vm with pc := (vm.pc + imm) % U32 } else vm
  else if opcode = OP_J then
    { vm with pc := imm }
  else if opcode = OP_JAL then
    { vm with regs := set_reg vm.regs 31 vm.pc, pc := imm }
  else if opcode = OP_JR then
    { vm with pc := vm.regs rs }
  else if opcode = OP_JALR then
    { vm with regs := set_reg vm.regs rd vm.pc, pc := vm.regs rs }
  else if opcode = OP_SYSCALL then
    { c32_raise_interrupt vm 4 with running := false }
  else if opcode = OP_BREAK then
    { c32_raise_interrupt vm 5 with running := false }
  else if opcode = OP_EI then
    if vm.kernel_mode = false then c32_raise_interrupt vm 7
    else { vm with interrupts := { vm.interrupts with enabled := true } }
  else if opcode = OP_DI then
    if vm.kernel_mode = false then c32_raise_interrupt vm 7
    else { vm with interrupts := { vm.interrupts with enabled := false } }
  else if opcode = OP_IRET then
    if vm.kernel_mode = false then c32_raise_interrupt vm 7
    else
      let saved := vm.interrupts.saved_regs_addr
      let regs' :=
        if (saved + 128) % U32 ≤ vm.memory_size then
          fun i => if i < 32 then c32_read_word vm.memory ((saved + i * 4) % U32) else vm.regs i
        else vm.regs
      { vm with
          pc := vm.interrupts.saved_pc
          regs := regs'
          interrupts := { vm.interrupts with enabled := true } }
  else if opcode = OP_RAISE then
    c32_raise_interrupt vm (imm % 256)
  else if opcode = OP_GETPC then
    { vm with regs := set_reg vm.regs rd vm.interrupts.saved_pc }
  else if opcode = OP_ENABLE_PAGING then
    if vm.kernel_mode = false then c32_raise_interrupt vm 7
    else { vm with paging_enabled := true }
  else if opcode = OP_DISABLE_PAGING then
    if vm.kernel_mode = false then c32_raise_interrupt vm 7
    else { vm with paging_enabled := false }
  else if opcode = OP_SET_PTBR then
    if vm.kernel_mode = false then c32_raise_interrupt vm 7
    else { vm with page_table_base := vm.regs rd, num_pages := vm.regs rt }
  else if opcode = OP_ENTER_USER then
    if vm.kernel_mode = false then c32_raise_interrupt vm 7
    else { vm with kernel_mode := false }
  else if opcode = OP_GETMODE then
    { vm with regs := set_reg vm.regs rd (if vm.kernel_mode then 1 else 0) }
  else
    { c32_raise_interrupt vm 1 with running := false }

/-- c32_vm_step: interrupt check, PC alignment, fetch translation, bounds
check, decode, PC advance, execute, R0 clamp.  Returns the C result code
(0 success, -1 error) with the new state. -/
def c32_vm_step (vm : VM) : Int × VM :=
  let chk := check_interrupts vm
  if chk.1 < 0 then (-1, chk.2)
  else
    let vm := chk.2
    if vm.pc % 8 ≠ 0 then (-1, c32_raise_interrupt vm 2)
    else
      let tr := translate_address vm vm.pc false true
      let vm := tr.2
      if tr.1 = SENTINEL then (-1, vm)
      else if (tr.1 + 8) % U32 > vm.memory_size then (-1, { vm with running := false })
      else
        let opcode := c32_read_byte vm.memory tr.1
        let rs := c32_read_byte vm.memory (tr.1 + 1)
        let rt := c32_read_byte vm.memory (tr.1 + 2)
        let rd := c32_read_byte vm.memory (tr.1 + 3)
        let imm := c32_read_word vm.memory (tr.1 + 4)
        let vm := { vm with pc := (vm.pc + 8) % U32 }
        let vm := exec_instr vm opcode rs rt rd imm
        (0, { vm with regs := set_reg vm.regs 0 0 })

/-- c32_vm_init: zero the registers, PC, interrupt and paging state, bind the
given memory, enter kernel mode.  The loops over regs[0..31] and
pending[0..31] are modelled by guarded zero functions. -/
def c32_vm_init (vm : VM) (memory : Nat → Nat) (memory_size : Nat) : VM :=
  { regs := fun i => if i < 32 then 0 else vm.regs i
    pc := 0
    memory := memory
    memory_size := memory_size
    running := false
    kernel_mode := true
    paging_enabled := false
    page_table_base := 0
    num_pages := 0
    interrupts :=
      { enabled := false
        pending := fun b => if b < 32 then 0 else vm.interrupts.pending b
        saved_pc := 0
        saved_regs_addr := 0 } }

/-- c32_vm_reset: zero the registers and PC, stop, enter kernel mode and
disable paging.  Nothing else is touched (the source explicitly leaves the
interrupt state and memory alone). -/
def c32_vm_reset (vm : VM) : VM :=
  { vm with
      regs := fun i => if i < 32 then 0 else vm.regs i
      pc := 0
      running := false
      kernel_mode := true
      paging_enabled := false }

/-! Supporting lemmas. -/

/-- Oring in a bit and masking with the same bit never gives zero. -/
lemma lor_land_shift_ne (x b : Nat) : ((x ||| (1 <<< b)) &&& (1 <<< b)) ≠ 0 := by
  have hb : (1 <<< b) = 2 ^ b := by simp [Nat.shiftLeft_eq]
  intro h0
  have ht : ((x ||| (1 <<< b)) &&& (1 <<< b)).testBit b = true := by
    simp [Nat.testBit_land, Nat.testBit_lor, hb, Nat.testBit_two_pow_self]
  rw [h0] at ht
  simp at ht

/-- Effects of c32_raise_interrupt: the pending bit is set and every other
part of the machine state is untouched. -/
lemma raise_effects (vm : VM) (n : Nat) (hn : n < 256) :
    pending_test (c32_raise_interrupt vm n) n = true ∧
    (c32_raise_interrupt vm n).interrupts.enabled = vm.interrupts.enabled ∧
    (c32_raise_interrupt vm n).interrupts.saved_pc = vm.interrupts.saved_pc ∧
    (c32_raise_interrupt vm n).interrupts.saved_regs_addr = vm.interrupts.saved_regs_addr ∧
    (c32_raise_interrupt vm n).paging_enabled = vm.paging_enabled ∧
    (c32_raise_interrupt vm n).page_table_base = vm.page_table_base ∧
    (c32_raise_interrupt vm n).num_pages = vm.num_pages ∧
    (c32_raise_interrupt vm n).kernel_mode = vm.kernel_mode ∧
    (c32_raise_interrupt vm n).pc = vm.pc ∧
    (c32_raise_interrupt vm n).regs = vm.regs := by
  have hb : n / 8 < 32 := by omega
  refine ⟨?_, ?_, ?_, ?_, ?_, ?_, ?_, ?_, ?_, ?_⟩ <;>
    simp [c32_raise_interrupt, pending_test, hb, bne_iff_ne]
  exact lor_land_shift_ne _ _

/-! Concrete machine states used by witnesses and counterexamples. -/

/-- A user-mode machine with paging off and a clean interrupt state. -/
def vm_user : VM :=
  { regs := fun _ => 0
    pc := 64
    memory := fun _ => 0
    memory_size := 65536
    running := true
    kernel_mode := false
    paging_enabled := false
    page_table_base := 0
    num_pages := 0
    interrupts := { enabled := false, pending := fun _ => 0, saved_pc := 0, saved_regs_addr := 0 } }

/-- A kernel-mode machine with a tiny 16-byte memory. -/
def vm_small : VM :=
  { regs := fun _ => 0
    pc := 0
    memory := fun _ => 0
    memory_size := 16
    running := true
    kernel_mode := true
    paging_enabled := false
    page_table_base := 0
    num_pages := 0
    interrupts := { enabled := false, pending := fun _ => 0, saved_pc := 0, saved_regs_addr := 0 } }

/-- User-mode machine whose page table base is 0xFFFFFFF0, so that the PTE
address of page 16 wraps around 2^32 to byte offset 0x30, where a fully
permissive PTE 0x0000100F is stored. -/
def vm_c1 : VM :=
  { regs := fun _ => 0
    pc := 0
    memory := fun a => if a = 48 then 15 else if a = 49 then 16 else 0
    memory_size := 65536
    running := true
    kernel_mode := false
    paging_enabled := true
    page_table_base := 4294967280
    num_pages := 17
    interrupts := { enabled := false, pending := fun _ => 0, saved_pc := 0, saved_regs_addr := 0 } }

/-- Kernel-mode machine with R1 = 0xFFFFFFFE and memory filled with 0xAB. -/
def vm_c8 : VM :=
  { regs := fun i => if i = 1 then 4294967294 else 0
    pc := 0
    memory := fun _ => 171
    memory_size := 16
    running := true
    kernel_mode := true
    paging_enabled := false
    page_table_base := 0
    num_pages := 0
    interrupts := { enabled := false, pending := fun _ => 0, saved_pc := 0, saved_regs_addr := 0 } }

/-- Kernel-mode machine with R1 = R2 = 65536 (for the MULH/MULHU check). -/
def vm_c7 : VM :=
  { regs := fun i => if i = 1 then 65536 else if i = 2 then 65536 else 0
    pc := 0
    memory := fun _ => 0
    memory_size := 65536
    running := true
    kernel_mode := true
    paging_enabled := false
    page_table_base := 0
    num_pages := 0
    interrupts := { enabled := false, pending := fun _ => 0, saved_pc := 0, saved_regs_addr := 0 } }

/-- A machine with non-trivial interrupt and paging state (for reset). -/
def vm_c6 : VM :=
  { regs := fun i => if i = 3 then 11 else 0
    pc := 4096
    memory := fun _ => 9
    memory_size := 65536
    running := true
    kernel_mode := false
    paging_enabled := true
    page_table_base := 8192
    num_pages := 3
    interrupts := { enabled := true, pending := fun b => if b = 0 then 64 else 0
                    saved_pc := 7, saved_regs_addr := 1000 } }

/-! Claim C3: privileged instructions in user mode. -/

/-- Claim C3 (confirmed).  In user mode each of EI, DI, IRET, ENABLE_PAGING,
DISABLE_PAGING, SET_PTBR, ENTER_USER raises interrupt 7 (its pending bit is
set) and performs none of the privileged effects: the interrupt enable flag,
saved_pc, saved_regs_addr, paging_enabled, page_table_base, num_pages,
kernel_mode, the PC and the whole register file are unchanged. -/
theorem c3_priv_user_raises_7 (vm : VM) (opc rs rt rd imm : Nat)
    (hk : vm.kernel_mode = false)
    (hop : opc = OP_EI ∨ opc = OP_DI ∨ opc = OP_IRET ∨ opc = OP_ENABLE_PAGING ∨
           opc = OP_DISABLE_PAGING ∨ opc = OP_SET_PTBR ∨ opc = OP_ENTER_USER) :
    pending_test (exec_instr vm opc rs rt rd imm) 7 = true ∧
    (exec_instr vm opc rs rt rd imm).interrupts.enabled = vm.interrupts.enabled ∧
    (exec_instr vm opc rs rt rd imm).interrupts.saved_pc = vm.interrupts.saved_pc ∧
    (exec_instr vm opc rs rt rd imm).interrupts.saved_regs_addr = vm.interrupts.saved_regs_addr ∧
    (exec_instr vm opc rs rt rd imm).paging_enabled = vm.paging_enabled ∧
    (exec_instr vm opc rs rt rd imm).page_table_base = vm.page_table_base ∧
    (exec_instr vm opc rs rt rd imm).num_pages = vm.num_pages ∧
    (exec_instr vm opc rs rt rd imm).kernel_mode = vm.kernel_mode ∧
    (exec_instr vm opc rs rt rd imm).pc = vm.pc ∧
    (exec_instr vm opc rs rt rd imm).regs = vm.regs := by
  have hx : exec_instr vm opc rs rt rd imm = c32_raise_interrupt vm 7 := by
    rcases hop with h | h | h | h | h | h | h <;> subst h <;>
      simp [exec_instr, hk, OP_NOP, OP_ADD, OP_ADDU, OP_SUB, OP_SUBU, OP_ADDI, OP_ADDIU,
        OP_AND, OP_OR, OP_XOR, OP_NOR, OP_ANDI, OP_ORI, OP_XORI, OP_LUI,
        OP_SLL, OP_SRL, OP_SRA, OP_SLLV, OP_SRLV, OP_SRAV,
        OP_SLT, OP_SLTU, OP_SLTI, OP_SLTIU,
        OP_MUL, OP_MULH, OP_MULHU, OP_DIV, OP_DIVU, OP_REM, OP_REMU,
        OP_LW, OP_LH, OP_LHU, OP_LB, OP_LBU, OP_SW, OP_SH, OP_SB,
        OP_BEQ, OP_BNE, OP_BLEZ, OP_BGTZ, OP_BLTZ, OP_BGEZ,
        OP_J, OP_JAL, OP_JR, OP_JALR, OP_SYSCALL, OP_BREAK,
        OP_EI, OP_DI, OP_IRET, OP_RAISE, OP_GETPC,
        OP_ENABLE_PAGING, OP_DISABLE_PAGING, OP_SET_PTBR, OP_ENTER_USER, OP_GETMODE]
  rw [hx]
  exact raise_effects vm 7 (by norm_num)

/-- Witness for C3: EI in the concrete user-mode machine raises interrupt 7
and changes nothing else. -/
theorem c3_witness :
    pending_test (exec_instr vm_user OP_EI 0 0 0 0) 7 = true ∧
    (exec_instr vm_user OP_EI 0 0 0 0).interrupts.enabled = vm_user.interrupts.enabled ∧
    (exec_instr vm_user OP_EI 0 0 0 0).interrupts.saved_pc = vm_user.interrupts.saved_pc ∧
    (exec_instr vm_user OP_EI 0 0 0 0).interrupts.saved_regs_addr = vm_user.interrupts.saved_regs_addr ∧
    (exec_instr vm_user OP_EI 0 0 0 0).paging_enabled = vm_user.paging_enabled ∧
    (exec_instr vm_user OP_EI 0 0 0 0).page_table_base = vm_user.page_table_base ∧
    (exec_instr vm_user OP_EI 0 0 0 0).num_pages = vm_user.num_pages ∧
    (exec_instr vm_user OP_EI 0 0 0 0).kernel_mode = vm_user.kernel_mode ∧
    (exec_instr vm_user OP_EI 0 0 0 0).pc = vm_user.pc ∧
    (exec_instr vm_user OP_EI 0 0 0 0).regs = vm_user.regs :=
  c3_priv_user_raises_7 vm_user OP_EI 0 0 0 0 rfl (Or.inl rfl)

/-! Claim C4: bound on translated addresses. -/

/-- Counterexample to claim C4: in kernel mode with a 16-byte memory,
translating address 100 returns 100, which is not the fault sentinel and
not below memory_size. -/
theorem c4_counterexample :
    (translate_address vm_small 100 false false).1 = 100 ∧
    (translate_address vm_small 100 false false).2 = vm_small ∧
    (100 : Nat) ≠ SENTINEL ∧
    ¬((translate_address vm_small 100 false false).1 < vm_small.memory_size) := by
  refine ⟨rfl, rfl, by decide, by decide⟩

/-- Claim C4 as amended: the MMU does not bound non-sentinel results by
memory_size; in kernel mode or with paging disabled translation is the
identity mapping (no interrupt is raised, the state is returned unchanged),
so the result can be any 32-bit address.  Bounds are enforced by each caller
separately. -/
theorem c4_translate_identity (vm : VM) (vaddr : Nat) (w x : Bool)
    (h : vm.kernel_mode = true ∨ vm.paging_enabled = false) :
    translate_address vm vaddr w x = (vaddr, vm) := by
  rcases h with h | h
  · simp [translate_address, h]
  · cases hk : vm.kernel_mode <;> simp [translate_address, h, hk]

/-- Witness for the amended C4: identity translation in the kernel-mode
machine. -/
theorem c4_witness : translate_address vm_small 12345 true true = (12345, vm_small) :=
  c4_translate_identity vm_small 12345 true true (Or.inl rfl)

/-! Claim C7: MULH / MULHU. -/

/-- Modelled from the spec (design note on 64-bit multiply high, missing from
the C): the upper 32 bits of the 64-bit two's-complement signed product of
two uint32 register values. -/
def mulh_upper_signed (a b : Nat) : Nat :=
  of_int32 (Int.fdiv (to_int32 a * to_int32 b) 4294967296)

/-- Modelled from the spec: the upper 32 bits of the 64-bit unsigned product
of two uint32 register values. -/
def mulhu_upper (a b : Nat) : Nat := ((a % U32) * (b % U32)) / U32

/-- Claim C7 (code_bug).  With R1 = R2 = 65536 the source's MULH and MULHU
both write 0 to rd, while the upper 32 bits of the 64-bit product (signed or
unsigned) are 1 — the repository's own test suite asserts the value 1. -/
theorem c7_mulh_stubbed :
    (exec_instr vm_c7 OP_MULH 1 2 3 0).regs 3 = 0 ∧
    (exec_instr vm_c7 OP_MULHU 1 2 3 0).regs 3 = 0 ∧
    mulh_upper_signed (vm_c7.regs 1) (vm_c7.regs 2) = 1 ∧
    mulhu_upper (vm_c7.regs 1) (vm_c7.regs 2) = 1 ∧
    (0 : Nat) ≠ 1 := by
  refine ⟨rfl, rfl, by decide, by decide, by decide⟩

/-! Claim C8: loads on translation fault. -/

/-- Claim C8 (code_bug).  LW with effective address 0xFFFFFFFE in kernel
mode: translation succeeds (identity), the bounds guard computes
(0xFFFFFFFE + 4) mod 2^32 = 2 <= memory_size and therefore wrongly passes,
and rt is written from a read beyond the end of the address space even
though the 4-byte access does not lie within memory. -/
theorem c8_load_guard_wraps :
    (exec_instr vm_c8 OP_LW 1 2 0 0).regs 2 = 2880154539 ∧
    vm_c8.regs 2 = 0 ∧
    (translate_address vm_c8 (vm_c8.regs 1) false false).1 = 4294967294 ∧
    vm_c8.regs 1 + 4 > vm_c8.memory_size := by
  refine ⟨rfl, rfl, rfl, by decide⟩

/-! Claim C1: the translation fault characterisation. -/

/-- Claim C1 (code_bug).  In vm_c1 the PTE of page 16 sits at
page_table_base + 16*4 = 0x100000030, which does not lie inside the 64 KiB
memory, so the claim requires a page fault; but the uint32 computation wraps
to byte offset 0x30, the bounds check passes, and translation returns the
mapped address 0x1000 without raising interrupt 8. -/
theorem c1_pte_bounds_wrap :
    (translate_address vm_c1 65536 false false).1 = 4096 ∧
    (translate_address vm_c1 65536 false false).2 = vm_c1 ∧
    pending_test vm_c1 8 = false ∧
    (4096 : Nat) ≠ SENTINEL ∧
    vm_c1.page_table_base + (65536 / 4096) * 4 + 4 > vm_c1.memory_size := by
  refine ⟨rfl, rfl, by decide, by decide, by decide⟩

/-! Claim C6: reset versus init. -/

/-- Counterexample to claim C6: resetting vm_c6 leaves saved_pc = 7,
num_pages = 3 and the interrupt enable flag set, whereas init zero-fills all
of them — reset does not reproduce the init state. -/
theorem c6_counterexample :
    (c32_vm_reset vm_c6).interrupts.saved_pc = 7 ∧
    (c32_vm_reset vm_c6).num_pages = 3 ∧
    (c32_vm_reset vm_c6).interrupts.enabled = true ∧
    (c32_vm_init vm_c6 vm_c6.memory vm_c6.memory_size).interrupts.saved_pc = 0 ∧
    (c32_vm_init vm_c6 vm_c6.memory vm_c6.memory_size).num_pages = 0 ∧
    (c32_vm_init vm_c6 vm_c6.memory vm_c6.memory_size).interrupts.enabled = false := by
  refine ⟨rfl, rfl, rfl, rfl, rfl, rfl⟩

/-- Claim C6 as amended: reset zero-fills the 32 registers and the PC, stops
execution, forces kernel mode and disables paging, but — unlike init —
preserves the whole interrupt state (enable flag, pending bitmap, saved_pc,
saved_regs_addr), page_table_base, num_pages, and the memory. -/
theorem c6_reset_characterisation (vm : VM) :
    (∀ i, i < 32 → (c32_vm_reset vm).regs i = 0) ∧
    (c32_vm_reset vm).pc = 0 ∧
    (c32_vm_reset vm).running = false ∧
    (c32_vm_reset vm).kernel_mode = true ∧
    (c32_vm_reset vm).paging_enabled = false ∧
    (c32_vm_reset vm).interrupts = vm.interrupts ∧
    (c32_vm_reset vm).page_table_base = vm.page_table_base ∧
    (c32_vm_reset vm).num_pages = vm.num_pages ∧
    (c32_vm_reset vm).memory = vm.memory ∧
    (c32_vm_reset vm).memory_size = vm.memory_size := by
  refine ⟨fun i hi => by simp [c32_vm_reset, hi], rfl, rfl, rfl, rfl, rfl, rfl, rfl, rfl, rfl⟩

/-- Witness for the amended C6 at the concrete machine vm_c6. -/
theorem c6_witness :
    (c32_vm_reset vm_c6).regs 5 = 0 ∧ (c32_vm_reset vm_c6).interrupts = vm_c6.interrupts :=
  ⟨(c6_reset_characterisation vm_c6).1 5 (by norm_num),
   (c6_reset_characterisation vm_c6).2.2.2.2.2.1⟩

/-! Byte-level lemmas about c32_write_word. -/

lemma write_word_byte0 (m : Nat → Nat) (a v : Nat) : c32_write_word m a v a = v % 256 := by
  simp only [c32_write_word, set_mem]
  rw [if_neg (by omega), if_neg (by omega), if_neg (by omega)]
  simp

lemma write_word_byte1 (m : Nat → Nat) (a v : Nat) : c32_write_word m a v (a + 1) = v / 256 % 256 := by
  simp only [c32_write_word, set_mem]
  rw [if_neg (by omega), if_neg (by omega)]
  simp

lemma write_word_byte2 (m : Nat → Nat) (a v : Nat) : c32_write_word m a v (a + 2) = v / 65536 % 256 := by
  simp only [c32_write_word, set_mem]
  rw [if_neg (by omega)]
  simp

lemma write_word_byte3 (m : Nat → Nat) (a v : Nat) :
    c32_write_word m a v (a + 3) = v / 16777216 % 256 := by
  simp only [c32_write_word, set_mem]
  simp

lemma write_word_outside (m : Nat → Nat) (a v x : Nat) (h : x < a ∨ a + 4 ≤ x) :
    c32_write_word m a v x = m x := by
  simp only [c32_write_word, set_mem]
  rw [if_neg (by omega), if_neg (by omega), if_neg (by omega), if_neg (by omega)]

/-- Reading back a stored little-endian word recovers the value mod 2^32. -/
lemma read_word_write_word (m : Nat → Nat) (a v : Nat) :
    c32_read_word (c32_write_word m a v) a = v % U32 := by
  simp only [c32_read_word, c32_read_byte, write_word_byte0, write_word_byte1,
    write_word_byte2, write_word_byte3, U32]
  omega

/-- Reading a word only looks at the four bytes at the address. -/
lemma read_word_congr (m1 m2 : Nat → Nat) (a : Nat) (h : ∀ k, k < 4 → m1 (a + k) = m2 (a + k)) :
    c32_read_word m1 a = c32_read_word m2 a := by
  have h0 := h 0 (by norm_num)
  have h1 := h 1 (by norm_num)
  have h2 := h 2 (by norm_num)
  have h3 := h 3 (by norm_num)
  simp only [Nat.add_zero] at h0
  simp only [c32_read_word, c32_read_byte, h0, h1, h2, h3]

/-! Lemmas about the register-save loop. -/

lemma store_fold_outside (base : Nat) (r : Nat → Nat) (x : Nat) :
    ∀ (l : List Nat) (m : Nat → Nat), (∀ j ∈ l, j < 32) → base + 128 ≤ U32 →
      (∀ j ∈ l, x < base + j * 4 ∨ base + j * 4 + 4 ≤ x) →
      (l.foldl (fun mm i => c32_write_word mm ((base + i * 4) % U32) (r i)) m) x = m x := by
  intro l
  induction l with
  | nil => intro m _ _ _; simp
  | cons a t ih =>
    intro m hl hb hx
    simp only [List.foldl_cons]
    rw [ih _ (fun j hj => hl j (List.mem_cons_of_mem _ hj)) hb
        (fun j hj => hx j (List.mem_cons_of_mem _ hj))]
    have ha32 : a < 32 := hl a (List.mem_cons_self a t)
    have hmod : (base + a * 4) % U32 = base + a * 4 := Nat.mod_eq_of_lt (by omega)
    rw [hmod]
    exact write_word_outside m _ _ x (hx a (List.mem_cons_self a t))

lemma store_fold_hit (base : Nat) (r : Nat → Nat) :
    ∀ (l : List Nat) (m : Nat → Nat) (i : Nat), l.Nodup → i ∈ l → (∀ j ∈ l, j < 32) →
      base + 128 ≤ U32 →
      c32_read_word (l.foldl (fun mm j => c32_write_word mm ((base + j * 4) % U32) (r j)) m)
        (base + i * 4) = r i % U32 := by
  intro l
  induction l with
  | nil => intro m i _ hi; exact absurd hi (List.not_mem_nil i)
  | cons a t ih =>
    intro m i hnd hi hl hb
    have hnd' := List.nodup_cons.mp hnd
    simp only [List.foldl_cons]
    rcases List.mem_cons.mp hi with he | ht
    · subst he
      have hi32 : i < 32 := hl i (List.mem_cons_self i t)
      have hmod : (base + i * 4) % U32 = base + i * 4 := Nat.mod_eq_of_lt (by omega)
      have hcongr : c32_read_word
          (t.foldl (fun mm j => c32_write_word mm ((base + j * 4) % U32) (r j))
            (c32_write_word m ((base + i * 4) % U32) (r i))) (base + i * 4) =
          c32_read_word (c32_write_word m ((base + i * 4) % U32) (r i)) (base + i * 4) := by
        apply read_word_congr
        intro k hk
        apply store_fold_outside base r _ t _ (fun j hj => hl j (List.mem_cons_of_mem _ hj)) hb
        intro j hj
        have hji : j ≠ i := fun he => hnd'.1 (he ▸ hj)
        have hj32 : j < 32 := hl j (List.mem_cons_of_mem _ hj)
        omega
      rw [hcongr, hmod, read_word_write_word]
    · exact ih _ i hnd'.2 ht (fun j hj => hl j (List.mem_cons_of_mem _ hj)) hb

/-! Lemmas about the pending-interrupt scan. -/

lemma scan_pending_finds (vm : VM) :
    ∀ (c i n : Nat), i ≤ n → n < i + c → pending_test vm n = true →
      (∀ m, i ≤ m → m < n → pending_test vm m = false) →
      scan_pending vm c i = some n := by
  intro c
  induction c with
  | zero => intro i n h1 h2 _ _; omega
  | succ c ih =>
    intro i n h1 h2 hp hmin
    by_cases hi : pending_test vm i = true
    · have he : i = n := by
        by_contra hne
        have hlt : i < n := lt_of_le_of_ne h1 hne
        have hfalse := hmin i le_rfl hlt
        rw [hi] at hfalse
        exact Bool.noConfusion hfalse
      subst he
      simp [scan_pending, hi]
    · have hi' : pending_test vm i = false := by
        cases h : pending_test vm i
        · rfl
        · exact absurd h hi
      have hne : i ≠ n := by
        intro he
        rw [he, hp] at hi'
        exact Bool.noConfusion hi'
      have hlt : i < n := lt_of_le_of_ne h1 hne
      simp only [scan_pending, hi', Bool.false_eq_true, if_false]
      exact ih (i + 1) n (by omega) (by omega) hp (fun m hm1 hm2 => hmin m (by omega) hm2)

lemma scan_pending_nothing (vm : VM) :
    ∀ (c i : Nat), (∀ m, i ≤ m → m < i + c → pending_test vm m = false) →
      scan_pending vm c i = none := by
  intro c
  induction c with
  | zero => intro i _; rfl
  | succ c ih =>
    intro i h
    have hi : pending_test vm i = false := h i le_rfl (by omega)
    simp only [scan_pending, hi, Bool.false_eq_true, if_false]
    exact ih (i + 1) (fun m hm1 hm2 => h m (by omega) (by omega))

/-- Clearing a bit with the source's mask really clears it. -/
lemma mask_clears_bit (x b : Nat) (hb : b < 8) :
    ((x &&& (255 ^^^ (1 <<< b))) &&& (1 <<< b)) = 0 := by
  rw [Nat.land_assoc]
  have h : (255 ^^^ (1 <<< b)) &&& (1 <<< b) = 0 := by
    interval_cases b <;> decide
  rw [h]
  simp

/-! Claim C2: the interrupt dispatch sequence. -/

/-- What claim C2 asserts about the outcome of a dispatch of interrupt n:
bit n cleared, PC saved, kernel mode forced, R29 decremented by 128 (32-bit
wrap), saved_regs_addr = new R29, other registers untouched except R4 = n,
the register file stored little-endian at the saved region when it fits,
interrupts disabled, and the PC loaded from IVT slot n (or the VM halted
with result -1 when the slot read would exceed memory). -/
def c2_dispatch_spec (vm : VM) (n : Nat) (res : Int × VM) : Prop :=
  pending_test res.2 n = false ∧
  res.2.interrupts.saved_pc = vm.pc ∧
  res.2.kernel_mode = true ∧
  res.2.regs 29 = (vm.regs 29 + (U32 - 128)) % U32 ∧
  res.2.interrupts.saved_regs_addr = res.2.regs 29 ∧
  res.2.interrupts.enabled = false ∧
  res.2.regs 4 = n ∧
  (∀ i, i ≠ 4 → i ≠ 29 → res.2.regs i = vm.regs i) ∧
  (res.2.interrupts.saved_regs_addr + 128 ≤ vm.memory_size →
    ∀ i, i < 32 →
      c32_read_word res.2.memory (res.2.interrupts.saved_regs_addr + i * 4) =
        (if i = 29 then res.2.interrupts.saved_regs_addr else vm.regs i) % U32) ∧
  (n * 8 + 4 ≤ vm.memory_size → res.1 = 1 ∧ res.2.pc = c32_read_word res.2.memory (n * 8)) ∧
  (vm.memory_size < n * 8 + 4 → res.1 = -1 ∧ res.2.running = false ∧ res.2.pc = vm.pc)

/-- The dispatch helper satisfies the claimed description. -/
lemma dispatch_int_spec (vm : VM) (n : Nat) (hn : n < 255) (hms : vm.memory_size < U32) :
    c2_dispatch_spec vm n (dispatch_int vm n) := by
  have hb8 : n % 8 < 8 := Nat.mod_lt _ (by norm_num)
  have hmask := fun x => mask_clears_bit x (n % 8) hb8
  have hstore : (dispatch_int vm n).2.interrupts.saved_regs_addr + 128 ≤ vm.memory_size →
      ∀ i, i < 32 →
        c32_read_word (dispatch_int vm n).2.memory
          ((dispatch_int vm n).2.interrupts.saved_regs_addr + i * 4) =
          (if i = 29 then (dispatch_int vm n).2.interrupts.saved_regs_addr
           else vm.regs i) % U32 := by
    intro hfit i hi
    have hsa : (dispatch_int vm n).2.interrupts.saved_regs_addr =
        (vm.regs 29 + (U32 - 128)) % U32 := by
      by_cases hivt : n * 8 + 4 ≤ vm.memory_size <;> simp [dispatch_int, hivt]
    rw [hsa] at hfit ⊢
    have hguard : ((vm.regs 29 + (U32 - 128)) % U32 + 128) % U32 ≤ vm.memory_size :=
      le_trans (Nat.mod_le _ _) hfit
    have hguard2 : (vm.regs 29 + (U32 - 128) + 128) % U32 ≤ vm.memory_size := by
      simp only [U32] at hfit ⊢
      omega
    have hmem : (dispatch_int vm n).2.memory =
        store_regs vm.memory ((vm.regs 29 + (U32 - 128)) % U32)
          (set_reg vm.regs 29 ((vm.regs 29 + (U32 - 128)) % U32)) := by
      by_cases hivt : n * 8 + 4 ≤ vm.memory_size <;>
        simp [dispatch_int, hivt, hguard, hguard2]
    rw [hmem]
    have hhit := store_fold_hit ((vm.regs 29 + (U32 - 128)) % U32)
      (set_reg vm.regs 29 ((vm.regs 29 + (U32 - 128)) % U32)) (List.range 32) vm.memory i
      (List.nodup_range 32) (List.mem_range.mpr hi) (fun j hj => List.mem_range.mp hj)
      (by omega)
    simp only [store_regs]
    rw [hhit]
    simp [set_reg]
  by_cases hivt : n * 8 + 4 ≤ vm.memory_size
  · refine ⟨?_, ?_, ?_, ?_, ?_, ?_, ?_, ?_, hstore, ?_, ?_⟩
    · simp [dispatch_int, hivt, pending_test, hmask]
    · simp [dispatch_int, hivt]
    · simp [dispatch_int, hivt]
    · simp [dispatch_int, hivt, set_reg]
    · simp [dispatch_int, hivt, set_reg]
    · simp [dispatch_int, hivt]
    · simp [dispatch_int, hivt, set_reg]
    · intro i h4 h29
      simp [dispatch_int, hivt, set_reg, h4, h29]
    · intro _
      constructor
      · simp [dispatch_int, hivt]
      · simp [dispatch_int, hivt]
    · intro h
      exact absurd hivt (by omega)
  · refine ⟨?_, ?_, ?_, ?_, ?_, ?_, ?_, ?_, hstore, ?_, ?_⟩
    · simp [dispatch_int, hivt, pending_test, hmask]
    · simp [dispatch_int, hivt]
    · simp [dispatch_int, hivt]
    · simp [dispatch_int, hivt, set_reg]
    · simp [dispatch_int, hivt, set_reg]
    · simp [dispatch_int, hivt]
    · simp [dispatch_int, hivt, set_reg]
    · intro i h4 h29
      simp [dispatch_int, hivt, set_reg, h4, h29]
    · intro h
      exact absurd h hivt
    · intro _
      refine ⟨?_, ?_, ?_⟩ <;> simp [dispatch_int, hivt]

/-- Claim C2 (confirmed).  At the start of a step cycle check_interrupts does
nothing when interrupts are disabled or when no bit 0..254 is pending (in
particular a pending bit 255 alone never dispatches); otherwise the lowest
pending interrupt n < 255 is dispatched with the full saved-state sequence
described by c2_dispatch_spec. -/
theorem c2_check_interrupts_characterisation (vm : VM) :
    (vm.interrupts.enabled = false → check_interrupts vm = (0, vm)) ∧
    ((∀ m, m < 255 → pending_test vm m = false) → check_interrupts vm = (0, vm)) ∧
    (∀ n, vm.interrupts.enabled = true → n < 255 → pending_test vm n = true →
      (∀ m, m < n → pending_test vm m = false) → vm.memory_size < U32 →
      c2_dispatch_spec vm n (check_interrupts vm)) := by
  refine ⟨?_, ?_, ?_⟩
  · intro h
    simp [check_interrupts, h]
  · intro h
    have hscan : scan_pending vm 255 0 = none :=
      scan_pending_nothing vm 255 0 (fun m _ hm => h m (by omega))
    cases hE : vm.interrupts.enabled
    · simp [check_interrupts, hE]
    · simp [check_interrupts, hE, hscan]
  · intro n he hn hp hmin hms
    have hscan : scan_pending vm 255 0 = some n :=
      scan_pending_finds vm 255 0 n (Nat.zero_le n) (by omega) hp
        (fun m _ hm => hmin m hm)
    have hck : check_interrupts vm = dispatch_int vm n := by
      simp [check_interrupts, he, hscan]
    rw [hck]
    exact dispatch_int_spec vm n hn hms

/-- Machine with interrupts enabled and pending bits 2 and 7 (byte 0 of the
bitmap is 0b10000100 = 132), R29 = 512, 4 KiB memory. -/
def vm_c2 : VM :=
  { regs := fun i => if i = 29 then 512 else 0
    pc := 800
    memory := fun _ => 0
    memory_size := 4096
    running := true
    kernel_mode := false
    paging_enabled := false
    page_table_base := 0
    num_pages := 0
    interrupts := { enabled := true, pending := fun b => if b = 0 then 132 else 0
                    saved_pc := 0, saved_regs_addr := 0 } }

/-- Witness for C2: in vm_c2 the lowest pending interrupt is 2 and the full
dispatch description holds. -/
theorem c2_witness : c2_dispatch_spec vm_c2 2 (check_interrupts vm_c2) :=
  (c2_check_interrupts_characterisation vm_c2).2.2 2 rfl (by norm_num) (by decide)
    (by decide) (by decide)

/-! Claim C5: the saved-register region invariant. -/

/-- Machine with interrupts enabled, pending bit 0, R29 = 300 and a 200-byte
memory: dispatching from here is possible (R29 is a plain register value) and
leaves a handler running with a saved region that is not inside memory. -/
def vm_c5 : VM :=
  { regs := fun i => if i = 29 then 300 else 0
    pc := 0
    memory := fun _ => 0
    memory_size := 200
    running := true
    kernel_mode := true
    paging_enabled := false
    page_table_base := 0
    num_pages := 0
    interrupts := { enabled := true, pending := fun b => if b = 0 then 1 else 0
                    saved_pc := 0, saved_regs_addr := 0 } }

/-- Counterexample to claim C5: dispatching interrupt 0 from vm_c5 (R29 = 300,
memory_size = 200) succeeds (result 1, so a handler is now executing), yet
saved_regs_addr = 172 and 172 + 128 = 300 > 200: the 128-byte region does not
lie within memory.  (The register save was skipped, but the invariant claimed
for every handler state is already broken.) -/
theorem c5_counterexample :
    (check_interrupts vm_c5).1 = 1 ∧
    (check_interrupts vm_c5).2.interrupts.saved_regs_addr = 172 ∧
    (check_interrupts vm_c5).2.memory_size = 200 ∧
    172 + 128 > 200 :=
  ⟨rfl, rfl, rfl, by decide⟩

/-- Claim C5 as amended: the saved-region containment holds at dispatch only
under the precondition that the pre-dispatch stack pointer satisfies
128 ≤ R29 ≤ memory_size; the code itself never checks this, and dispatching
with R29 outside that range (e.g. R29 = 300 with memory_size = 200, or any
R29 < 128, which wraps below zero) violates the invariant. -/
theorem c5_saved_region_bound (vm : VM)
    (h1 : 128 ≤ vm.regs 29) (h2 : vm.regs 29 ≤ vm.memory_size)
    (h4 : (check_interrupts vm).1 = 1) :
    (check_interrupts vm).2.interrupts.saved_regs_addr + 128 ≤
      (check_interrupts vm).2.memory_size := by
  cases hE : vm.interrupts.enabled
  · have hck : check_interrupts vm = (0, vm) := by simp [check_interrupts, hE]
    rw [hck] at h4
    simp at h4
  · rcases hscan : scan_pending vm 255 0 with _ | n
    · have hck : check_interrupts vm = (0, vm) := by simp [check_interrupts, hE, hscan]
      rw [hck] at h4
      simp at h4
    · have hck : check_interrupts vm = dispatch_int vm n := by
        simp [check_interrupts, hE, hscan]
      rw [hck] at h4 ⊢
      by_cases hivt : n * 8 + 4 ≤ vm.memory_size
      · have hsa : (dispatch_int vm n).2.interrupts.saved_regs_addr =
            (vm.regs 29 + (U32 - 128)) % U32 := by simp [dispatch_int, hivt]
        have hmsz : (dispatch_int vm n).2.memory_size = vm.memory_size := by
          simp [dispatch_int, hivt]
        rw [hsa, hmsz]
        simp only [U32]
        omega
      · have hminus : (dispatch_int vm n).1 = -1 := by simp [dispatch_int, hivt]
        rw [hminus] at h4
        exact absurd h4 (by decide)

/-- Machine with interrupts enabled, pending bit 5, R29 = 512, 4 KiB memory. -/
def vm_c5w : VM :=
  { regs := fun i => if i = 29 then 512 else 0
    pc := 160
    memory := fun _ => 0
    memory_size := 4096
    running := true
    kernel_mode := true
    paging_enabled := false
    page_table_base := 0
    num_pages := 0
    interrupts := { enabled := true, pending := fun b => if b = 0 then 32 else 0
                    saved_pc := 0, saved_regs_addr := 0 } }

/-- Witness for the amended C5 at vm_c5w (R29 = 512 ≤ memory_size = 4096). -/
theorem c5_witness :
    (check_interrupts vm_c5w).2.interrupts.saved_regs_addr + 128 ≤
      (check_interrupts vm_c5w).2.memory_size :=
  c5_saved_region_bound vm_c5w (by decide) (by decide) rfl

/-! The assembler (src/src/asm/c32_parser.c, c32_symbols.c, c32_encode.c,
src/src/c32asm.c).  C strings are List Char; an input file is the list of its
lines (newlines stripped, as the fgets loop does); lines are assumed shorter
than MAX_LINE_LEN as in any input the C reads in one fgets call. -/

/-- skip_whitespace from c32_parser.c. -/
def skip_whitespace : List Char → List Char
  | [] => []
  | c :: r => if c = ' ' ∨ c = '\t' then skip_whitespace r else c :: r

/-- The tokenize loop of c32_parser.c as a single pass: whitespace and commas
separate tokens, ';' and '#' end the scan (the current token still counts),
tokens are truncated to MAX_LABEL_LEN-1 = 63 characters, and scanning stops
once 8 tokens have been collected. -/
def tokenize_go : List Char → List Char → List (List Char) → List (List Char)
  | [], cur, acc => if cur = [] then acc else acc ++ [cur]
  | c :: r, cur, acc =>
    if c = ';' ∨ c = '#' then (if cur = [] then acc else acc ++ [cur])
    else if c = ' ' ∨ c = '\t' ∨ c = ',' then
      (if cur = [] then tokenize_go r [] acc
       else if acc.length + 1 < 8 then tokenize_go r [] (acc ++ [cur])
       else acc ++ [cur])
    else
      (if cur.length < 63 then tokenize_go r (cur ++ [c]) acc
       else tokenize_go r cur acc)

/-- tokenize from c32_parser.c (called with max_tokens = 8). -/
def tokenize (l : List Char) : List (List Char) := tokenize_go l [] []

/-- The hex digit loop of parse_immediate.  The C accumulates in an int32
((value << 4) | digit, with overflow undefined); the model wraps mod 2^32. -/
def parse_imm_hex : List Char → Nat → Nat
  | [], v => v
  | c :: r, v =>
    if '0' ≤ c ∧ c ≤ '9' then parse_imm_hex r ((v * 16 + (c.toNat - '0'.toNat)) % U32)
    else if 'a' ≤ c ∧ c ≤ 'f' then parse_imm_hex r ((v * 16 + (c.toNat - 'a'.toNat + 10)) % U32)
    else if 'A' ≤ c ∧ c ≤ 'F' then parse_imm_hex r ((v * 16 + (c.toNat - 'A'.toNat + 10)) % U32)
    else v

/-- The decimal digit loop of parse_immediate. -/
def parse_imm_dec : List Char → Nat → Nat
  | [], v => v
  | c :: r, v =>
    if '0' ≤ c ∧ c ≤ '9' then parse_imm_dec r ((v * 10 + (c.toNat - '0'.toNat)) % U32)
    else v

/-- parse_immediate from c32_parser.c: optional sign, then 0x-hex or decimal.
It never fails (the C always returns 0); a token with no leading digits
yields the value 0.  The result is the uint32 bit pattern after the
(uint32_t) cast performed by every caller; negation is two's complement. -/
def parse_immediate (l : List Char) : Nat :=
  let sp : Bool × List Char :=
    match l with
    | '-' :: r => (true, r)
    | '+' :: r => (false, r)
    | r => (false, r)
  let v : Nat :=
    match sp.2 with
    | '0' :: 'x' :: r => parse_imm_hex r 0
    | '0' :: 'X' :: r => parse_imm_hex r 0
    | r => parse_imm_dec r 0
  if sp.1 then (U32 - v) % U32 else v

/-- The digit loop of the R## branch of c32_parse_register: any non-digit
after the R makes the whole parse fail (-1). -/
def parse_reg_digits : List Char → Nat → Option Nat
  | [], v => some v
  | c :: r, v =>
    if '0' ≤ c ∧ c ≤ '9' then parse_reg_digits r (v * 10 + (c.toNat - '0'.toNat))
    else none

/-- c32_parse_register from c32_encode.c: ABI names, then R0..R31; -1 on
failure. -/
def c32_parse_register (l : List Char) : Int :=
  if l = [] then -1
  else if l = "zero".toList then 0
  else if l = "at".toList then 1
  else if l = "v0".toList then 2
  else if l = "v1".toList then 3
  else if l = "a0".toList then 4
  else if l = "a1".toList then 5
  else if l = "a2".toList then 6
  else if l = "a3".toList then 7
  else if l = "t0".toList then 8
  else if l = "t1".toList then 9
  else if l = "t2".toList then 10
  else if l = "t3".toList then 11
  else if l = "t4".toList then 12
  else if l = "t5".toList then 13
  else if l = "t6".toList then 14
  else if l = "t7".toList then 15
  else if l = "s0".toList then 16
  else if l = "s1".toList then 17
  else if l = "s2".toList then 18
  else if l = "s3".toList then 19
  else if l = "s4".toList then 20
  else if l = "s5".toList then 21
  else if l = "s6".toList then 22
  else if l = "s7".toList then 23
  else if l = "t8".toList then 24
  else if l = "t9".toList then 25
  else if l = "k0".toList then 26
  else if l = "k1".toList then 27
  else if l = "gp".toList then 28
  else if l = "sp".toList then 29
  else if l = "fp".toList then 30
  else if l = "ra".toList then 31
  else
    match l with
    | [] => -1
    | c :: r =>
      if (c = 'R' ∨ c = 'r') ∧ r ≠ [] then
        match parse_reg_digits r 0 with
        | some reg => if reg ≤ 31 then (reg : Int) else -1
        | none => -1
      else -1

/-- The (uint8_t) narrowing applied to c32_parse_register results in
c32_asm_assemble_line; -1 becomes 255. -/
def to_uint8 (i : Int) : Nat := (i % 256).toNat

/-- parse_opcode from c32_parser.c. -/
def parse_opcode (m : List Char) : Int :=
  if m = "ADD".toList then (OP_ADD : Nat)
  else if m = "ADDU".toList then (OP_ADDU : Nat)
  else if m = "SUB".toList then (OP_SUB : Nat)
  else if m = "SUBU".toList then (OP_SUBU : Nat)
  else if m = "ADDI".toList then (OP_ADDI : Nat)
  else if m = "ADDIU".toList then (OP_ADDIU : Nat)
  else if m = "AND".toList then (OP_AND : Nat)
  else if m = "OR".toList then (OP_OR : Nat)
  else if m = "XOR".toList then (OP_XOR : Nat)
  else if m = "NOR".toList then (OP_NOR : Nat)
  else if m = "ANDI".toList then (OP_ANDI : Nat)
  else if m = "ORI".toList then (OP_ORI : Nat)
  else if m = "XORI".toList then (OP_XORI : Nat)
  else if m = "LUI".toList then (OP_LUI : Nat)
  else if m = "SLL".toList then (OP_SLL : Nat)
  else if m = "SRL".toList then (OP_SRL : Nat)
  else if m = "SRA".toList then (OP_SRA : Nat)
  else if m = "SLLV".toList then (OP_SLLV : Nat)
  else if m = "SRLV".toList then (OP_SRLV : Nat)
  else if m = "SRAV".toList then (OP_SRAV : Nat)
  else if m = "SLT".toList then (OP_SLT : Nat)
  else if m = "SLTU".toList then (OP_SLTU : Nat)
  else if m = "SLTI".toList then (OP_SLTI : Nat)
  else if m = "SLTIU".toList then (OP_SLTIU : Nat)
  else if m = "MUL".toList then (OP_MUL : Nat)
  else if m = "MULH".toList then (OP_MULH : Nat)
  else if m = "MULHU".toList then (OP_MULHU : Nat)
  else if m = "DIV".toList then (OP_DIV : Nat)
  else if m = "DIVU".toList then (OP_DIVU : Nat)
  else if m = "REM".toList then (OP_REM : Nat)
  else if m = "REMU".toList then (OP_REMU : Nat)
  else if m = "LW".toList then (OP_LW : Nat)
  else if m = "LH".toList then (OP_LH : Nat)
  else if m = "LHU".toList then (OP_LHU : Nat)
  else if m = "LB".toList then (OP_LB : Nat)
  else if m = "LBU".toList then (OP_LBU : Nat)
  else if m = "SW".toList then (OP_SW : Nat)
  else if m = "SH".toList then (OP_SH : Nat)
  else if m = "SB".toList then (OP_SB : Nat)
  else if m = "BEQ".toList then (OP_BEQ : Nat)
  else if m = "BNE".toList then (OP_BNE : Nat)
  else if m = "BLEZ".toList then (OP_BLEZ : Nat)
  else if m = "BGTZ".toList then (OP_BGTZ : Nat)
  else if m = "BLTZ".toList then (OP_BLTZ : Nat)
  else if m = "BGEZ".toList then (OP_BGEZ : Nat)
  else if m = "J".toList then (OP_J : Nat)
  else if m = "JAL".toList then (OP_JAL : Nat)
  else if m = "JR".toList then (OP_JR : Nat)
  else if m = "JALR".toList then (OP_JALR : Nat)
  else if m = "SYSCALL".toList then (OP_SYSCALL : Nat)
  else if m = "BREAK".toList then (OP_BREAK : Nat)
  else if m = "NOP".toList then (OP_NOP : Nat)
  else if m = "EI".toList then (OP_EI : Nat)
  else if m = "DI".toList then (OP_DI : Nat)
  else if m = "IRET".toList then (OP_IRET : Nat)
  else if m = "RAISE".toList then (OP_RAISE : Nat)
  else if m = "GETPC".toList then (OP_GETPC : Nat)
  else if m = "ENABLE_PAGING".toList then (OP_ENABLE_PAGING : Nat)
  else if m = "DISABLE_PAGING".toList then (OP_DISABLE_PAGING : Nat)
  else if m = "SET_PTBR".toList then (OP_SET_PTBR : Nat)
  else if m = "ENTER_USER".toList then (OP_ENTER_USER : Nat)
  else if m = "GETMODE".toList then (OP_GETMODE : Nat)
  else -1

/-- c32_instruction_t from include/c32_asm.h. -/
structure c32_instruction where
  opcode : Nat
  rs : Nat
  rt : Nat
  rd : Nat
  immediate : Nat

/-- c32_symbol_t from include/c32_asm.h. -/
structure c32_symbol where
  name : List Char
  address : Nat
  defined : Bool

/-- c32_asm_state_t: symbols holds the first num_symbols entries of the C
array, output the output_size bytes emitted so far. -/
structure asm_state where
  symbols : List c32_symbol
  current_address : Nat
  output : List Nat
  pass : Nat
  errors : Nat

/-- c32_asm_init from c32_symbols.c. -/
def asm_init : asm_state :=
  { symbols := [], current_address := 0, output := [], pass := 1, errors := 0 }

/-- c32_asm_find_symbol: index of the first symbol with the given name,
-1 when absent. -/
def c32_asm_find_symbol (st : asm_state) (name : List Char) : Int :=
  match st.symbols.findIdx? (fun s => s.name == name) with
  | some i => (i : Int)
  | none => -1

/-- Symbol-table access symbols[idx] (callers only use valid indices). -/
def sym_get (st : asm_state) (i : Nat) : c32_symbol :=
  st.symbols.getD i { name := [], address := 0, defined := false }

/-- c32_asm_add_symbol.  The caller in c32_asm_assemble_line ignores the
return code, so the model returns only the updated state; every error path
(empty or overlong name, duplicate definition, full table) leaves the state
unchanged. -/
def c32_asm_add_symbol (st : asm_state) (name : List Char) (address : Nat) : asm_state :=
  if name.length = 0 ∨ name.length ≥ 64 then st
  else
    match st.symbols.findIdx? (fun s => s.name == name) with
    | some i =>
      if (sym_get st i).defined then st
      else { st with symbols := (st.symbols.set i
        { name := (sym_get st i).name, address := address, defined := true }) }
    | none =>
      if st.symbols.length ≥ 1024 then st
      else { st with symbols := st.symbols ++ [{ name := name, address := address, defined := true }] }

/-- c32_encode_instruction from c32_encode.c: 8 little-endian bytes. -/
def c32_encode_instruction (inst : c32_instruction) : List Nat :=
  [inst.opcode % 256, inst.rs % 256, inst.rt % 256, inst.rd % 256,
   inst.immediate % 256, inst.immediate / 256 % 256,
   inst.immediate / 65536 % 256, inst.immediate / 16777216 % 256]

/-- uint32 subtraction a - b (two's complement wrap). -/
def u32_sub (a b : Nat) : Nat := (a + (U32 - b % U32)) % U32

/-- c32_asm_assemble_line from c32_parser.c.  Returns the C result code
(0 success, -1 error) and the updated state. -/
def c32_asm_assemble_line (st : asm_state) (line0 : List Char) : Int × asm_state :=
  let line1 := skip_whitespace line0
  match line1 with
  | [] => (0, st)
  | c0 :: _ =>
    if c0 = ';' ∨ c0 = '#' then (0, st)
    else
      -- label handling: scan to ':' stopping at whitespace
      let pre := line1.takeWhile (fun c => !(c == ':' || c == ' ' || c == '\t'))
      let rest := line1.drop pre.length
      let lab : Option (Int × asm_state) × List Char × asm_state :=
        if rest.head? = some ':' ∧ pre.length > 0 then
          if pre.length ≥ 64 then (some (-1, st), [], st)
          else
            let st1 := if st.pass = 1 then c32_asm_add_symbol st pre st.current_address else st
            let line2 := skip_whitespace rest.tail
            if line2 = [] then (some (0, st1), [], st1) else (none, line2, st1)
        else (none, line1, st)
      match lab.1 with
      | some r => r
      | none =>
        let line := lab.2.1
        let st := lab.2.2
        let tokens := tokenize line
        if tokens = [] then (0, st)
        else
          let tok := fun i => tokens.getD i ([] : List Char)
          let opcode := parse_opcode (tok 0)
          if opcode < 0 then (-1, st)
          else
            let opc := opcode.toNat
            let instP : Option c32_instruction :=
              if opc = OP_ADD ∨ opc = OP_ADDU ∨ opc = OP_SUB ∨ opc = OP_SUBU ∨
                 opc = OP_AND ∨ opc = OP_OR ∨ opc = OP_XOR ∨ opc = OP_NOR ∨
                 opc = OP_SLT ∨ opc = OP_SLTU ∨
                 opc = OP_MUL ∨ opc = OP_MULH ∨ opc = OP_MULHU ∨
                 opc = OP_DIV ∨ opc = OP_DIVU ∨ opc = OP_REM ∨ opc = OP_REMU ∨
                 opc = OP_SLLV ∨ opc = OP_SRLV ∨ opc = OP_SRAV then
                if tokens.length < 4 then none
                else some { opcode := opc, rd := to_uint8 (c32_parse_register (tok 1))
                            rs := to_uint8 (c32_parse_register (tok 2))
                            rt := to_uint8 (c32_parse_register (tok 3)), immediate := 0 }
              else if opc = OP_ADDI ∨ opc = OP_ADDIU ∨ opc = OP_ANDI ∨ opc = OP_ORI ∨
                      opc = OP_XORI ∨ opc = OP_SLTI ∨ opc = OP_SLTIU then
                if tokens.length < 4 then none
                else some { opcode := opc, rt := to_uint8 (c32_parse_register (tok 1))
                            rs := to_uint8 (c32_parse_register (tok 2)), rd := 0
                            immediate := parse_immediate (tok 3) }
              else if opc = OP_LUI then
                if tokens.length < 3 then none
                else some { opcode := opc, rt := to_uint8 (c32_parse_register (tok 1))
                            rs := 0, rd := 0, immediate := parse_immediate (tok 2) }
              else if opc = OP_SLL ∨ opc = OP_SRL ∨ opc = OP_SRA then
                if tokens.length < 4 then none
                else some { opcode := opc, rd := to_uint8 (c32_parse_register (tok 1))
                            rt := to_uint8 (c32_parse_register (tok 2)), rs := 0
                            immediate := parse_immediate (tok 3) }
              else if opc = OP_BEQ ∨ opc = OP_BNE then
                if tokens.length < 4 then none
                else
                  let idx := c32_asm_find_symbol st (tok 3)
                  let imm :=
                    if 0 ≤ idx then u32_sub (sym_get st idx.toNat).address (st.current_address + 8)
                    else parse_immediate (tok 3)
                  some { opcode := opc, rs := to_uint8 (c32_parse_register (tok 1))
                         rt := to_uint8 (c32_parse_register (tok 2)), rd := 0, immediate := imm }
              else if opc = OP_BLEZ ∨ opc = OP_BGTZ ∨ opc = OP_BLTZ ∨ opc = OP_BGEZ then
                if tokens.length < 3 then none
                else
                  let idx := c32_asm_find_symbol st (tok 2)
                  let imm :=
                    if 0 ≤ idx then u32_sub (sym_get st idx.toNat).address (st.current_address + 8)
                    else parse_immediate (tok 2)
                  some { opcode := opc, rs := to_uint8 (c32_parse_register (tok 1))
                         rt := 0, rd := 0, immediate := imm }
              else if opc = OP_J ∨ opc = OP_JAL then
                if tokens.length < 2 then none
                else
                  let idx := c32_asm_find_symbol st (tok 1)
                  let imm :=
                    if 0 ≤ idx then ((sym_get st idx.toNat).address + 4096) % U32
                    else (parse_immediate (tok 1) + 4096) % U32
                  some { opcode := opc, rs := 0, rt := 0, rd := 0, immediate := imm }
              else if opc = OP_JR then
                if tokens.length < 2 then none
                else some { opcode := opc, rs := to_uint8 (c32_parse_register (tok 1))
                            rt := 0, rd := 0, immediate := 0 }
              else if opc = OP_JALR then
                if tokens.length < 3 then none
                else some { opcode := opc, rd := to_uint8 (c32_parse_register (tok 1))
                            rs := to_uint8 (c32_parse_register (tok 2)), rt := 0, immediate := 0 }
              else if opc = OP_LW ∨ opc = OP_LH ∨ opc = OP_LHU ∨ opc = OP_LB ∨ opc = OP_LBU ∨
                      opc = OP_SW ∨ opc = OP_SH ∨ opc = OP_SB then
                if tokens.length < 4 then none
                else some { opcode := opc, rt := to_uint8 (c32_parse_register (tok 1))
                            rs := to_uint8 (c32_parse_register (tok 2)), rd := 0
                            immediate := parse_immediate (tok 3) }
              else
                some { opcode := opc, rs := 0, rt := 0, rd := 0, immediate := 0 }
            match instP with
            | none => (-1, st)
            | some inst =>
              if st.pass = 2 then
                if st.output.length + 8 > 65536 then (-1, st)
                else (0, { st with
                             output := st.output ++ c32_encode_instruction inst
                             current_address := st.current_address + 8 })
              else (0, { st with current_address := st.current_address + 8 })

/-- One pass of the driver loop in c32_asm_assemble_file: assemble each line,
counting errors. -/
def run_pass (st : asm_state) (lines : List (List Char)) : asm_state :=
  lines.foldl (fun s l =>
    let r := c32_asm_assemble_line s l
    if r.1 < 0 then { r.2 with errors := r.2.errors + 1 } else r.2) st

/-- c32_asm_assemble_file from src/src/c32asm.c with the file system
abstracted away: the input file is its list of lines and the output file is
the returned byte list (none when assembly failed before the write). -/
def c32_asm_assemble_file (lines : List (List Char)) : Option (List Nat) :=
  let st1 := run_pass { asm_init with pass := 1, current_address := 0, output := [] } lines
  if st1.errors > 0 then none
  else
    let st2 := run_pass { st1 with pass := 2, current_address := 0, output := [] } lines
    if st2.errors > 0 then none
    else some st2.output

/-! Claim C9: undefined symbols in branch/jump operands. -/

/-- Counterexample to claim C9: the one-line program "BEQ R1, R2, nowhere"
references the never-defined symbol nowhere, yet assembly reports no error
and writes an 8-byte output file (the operand fell through to the immediate
parser, which yielded 0). -/
theorem c9_counterexample :
    c32_asm_assemble_file ["BEQ R1, R2, nowhere".toList] = some [96, 1, 2, 0, 0, 0, 0, 0] ∧
    (c32_asm_assemble_line { asm_init with pass := 2 } ("BEQ R1, R2, nowhere".toList)).1 = 0 := by
  exact ⟨rfl, rfl⟩

/-- Claim C9 as amended: pass errors that do occur abort the assembly before
the output file is written (so no partial output exists), but a branch or
jump operand naming a never-defined symbol is not such an error: symbol
lookup fails, the operand falls back to parse_immediate (which always
succeeds; non-numeric text yields 0), the line assembles with result 0, and
the output file is written. -/
theorem c9_amended_behaviour :
    (∀ lines : List (List Char),
      (run_pass { asm_init with pass := 1, current_address := 0, output := [] } lines).errors > 0 →
        c32_asm_assemble_file lines = none) ∧
    (∀ lines : List (List Char),
      (run_pass { (run_pass { asm_init with pass := 1, current_address := 0, output := [] } lines) with
          pass := 2, current_address := 0, output := [] } lines).errors > 0 →
        c32_asm_assemble_file lines = none) ∧
    (∀ st : asm_state, st.pass = 2 →
      c32_asm_find_symbol st ("nowhere".toList) = -1 →
      st.output.length + 8 ≤ 65536 →
      c32_asm_assemble_line st ("BEQ R1, R2, nowhere".toList) =
        (0, { st with
                output := st.output ++ [96, 1, 2, 0, 0, 0, 0, 0]
                current_address := st.current_address + 8 })) := by
  refine ⟨?_, ?_, ?_⟩
  · intro lines h
    simp [c32_asm_assemble_file, h]
  · intro lines h2
    by_cases h1 : (run_pass { asm_init with pass := 1, current_address := 0, output := [] }
        lines).errors > 0
    · simp [c32_asm_assemble_file, h1]
    · simp [c32_asm_assemble_file, h1, h2]
  · intro st hp hfind hout
    have hnotover : ¬(st.output.length + 8 > 65536) := by omega
    rw [show ("nowhere".toList) = ['n', 'o', 'w', 'h', 'e', 'r', 'e'] from rfl] at hfind
    simp +decide [c32_asm_assemble_line, skip_whitespace, tokenize, tokenize_go,
      parse_opcode, parse_immediate, parse_imm_dec, to_uint8, c32_parse_register,
      parse_reg_digits, c32_encode_instruction, hp, hfind, hnotover,
      OP_BEQ, OP_ADD, OP_ADDU, OP_SUB, OP_SUBU, OP_ADDI, OP_ADDIU, OP_AND, OP_OR,
      OP_XOR, OP_NOR, OP_SLT, OP_SLTU, OP_MUL, OP_MULH, OP_MULHU, OP_DIV, OP_DIVU,
      OP_REM, OP_REMU, OP_SLLV, OP_SRLV, OP_SRAV, OP_SLTI, OP_SLTIU, OP_ANDI,
      OP_ORI, OP_XORI, OP_LUI, OP_SLL, OP_SRL, OP_SRA, OP_BNE]

/-- Witness for the amended C9: an actual pass-1 error ("ADD R1" has too few
operands) aborts with no output, and assembling the undefined-symbol branch
line from a fresh pass-2 state succeeds with immediate 0. -/
theorem c9_witness :
    c32_asm_assemble_file ["ADD R1".toList] = none ∧
    c32_asm_assemble_line { asm_init with pass := 2 } ("BEQ R1, R2, nowhere".toList) =
      (0, { ({ asm_init with pass := 2 } : asm_state) with
              output := ({ asm_init with pass := 2 } : asm_state).output ++
                [96, 1, 2, 0, 0, 0, 0, 0]
              current_address :=
                ({ asm_init with pass := 2 } : asm_state).current_address + 8 }) :=
  ⟨c9_amended_behaviour.1 ["ADD R1".toList] (by decide),
   c9_amended_behaviour.2.2 { asm_init with pass := 2 } rfl (by decide) (by decide)⟩

/-! Claim C10: unrecognized register tokens encode as 255. -/

/-- Claim C10 (confirmed).  The line "ADD foo, R1, R2" has an unrecognized
register token foo: c32_parse_register returns -1, the (uint8_t) narrowing
turns it into 255, the line assembles with result 0 (no error), and the
encoded instruction's rd byte (offset 3) is 255. -/
theorem c10_bad_register_encodes_255 :
    c32_asm_assemble_file ["ADD foo, R1, R2".toList] = some [1, 1, 2, 255, 0, 0, 0, 0] ∧
    (c32_asm_assemble_line { asm_init with pass := 2 } ("ADD foo, R1, R2".toList)).1 = 0 ∧
    c32_parse_register ("foo".toList) = -1 ∧
    to_uint8 (c32_parse_register ("foo".toList)) = 255 := by
  exact ⟨rfl, rfl, rfl, rfl⟩

end Crisp32
